import Mathlib

/-!
Verification of the flask-app-aws repository (src/app.py), an 18-line web
application that registers a single route `/` returning a fixed HTML page.

The embedding has two layers:
  1. the request/response behaviour of the registered route (the handler
     `home` is translated directly from the source; the dispatch of the
     host framework is modelled from the specification, since the
     framework is a dependency, not part of this repository);
  2. a statement-level evaluation of the module itself, which captures the
     literal naming inconsistency in the source (`_name_` instead of
     `__name__`): evaluating `Flask(_name_)` on line 2 raises a NameError
     because `_name_` is never bound.
-/

/-- The handler registered for path `/` (src/app.py lines 4-15): a
zero-parameter function returning the fixed triple-quoted HTML string,
byte-for-byte as it appears in the source. -/
def home : Unit → String := fun _ =>
  "\n    <html>\n      <head>\n        <title>Hello, Flask!</title>\n      </head>\n      <body>\n        <h1>Hello, World!</h1>\n        <p>Welcome to your Flask-powered webpage!</p>\n      </body>\n    </html>\n    "

/-- The fixed HTML body produced by `home`. -/
def homeBody : String := home ()

/-- An HTTP request: method, path, and the parts the handler never
inspects (headers, query string, body). -/
structure HttpRequest where
  method : String
  path : String
  headers : List (String × String)
  query : String
  body : String
deriving DecidableEq, Repr

/-- An HTTP response: status code, Content-Type header, body. -/
structure HttpResponse where
  status : Nat
  contentType : String
  body : String
deriving DecidableEq, Repr

/-- A registered route: path, allowed methods, handler
(src/app.py line 3 registers exactly one). -/
structure Route where
  path : String
  methods : List String
  handler : Unit → String

/-- The route table built by the decorator `@app.route` on line 3 of
src/app.py: the single path `/` with the default method GET, handled by
`home`. -/
def appRoutes : List Route := [⟨"/", ["GET"], home⟩]

/-- Modelled from the spec: the generic not-found page the host framework
returns for an unmatched route (spec section 4.1, "typically HTTP 404 for
unknown paths"). Its exact text is framework-internal; it is a fixed page
distinct from the body of `home`. -/
def notFoundBody : String :=
  "<!doctype html><title>404 Not Found</title><h1>Not Found</h1>"

/-- Modelled from the spec: the generic rejection page the host framework
returns for a method not allowed on a matched route (spec section 4.1,
"405 for unsupported methods"). -/
def methodNotAllowedBody : String :=
  "<!doctype html><title>405 Method Not Allowed</title><h1>Method Not Allowed</h1>"

/-- Modelled from the spec: the request dispatch of the host web
framework, which is not part of this repository. Per spec sections 4.1
and 7: a request whose path matches a registered route and whose method
is allowed invokes the handler and wraps its string return value in an
HTTP 200 response with Content-Type text/html (charset variant); an
unmatched path falls through to the generic 404 page; a matched path with
a method outside the allowed list receives the generic 405 rejection. -/
def flaskDispatch (routes : List Route) (req : HttpRequest) : HttpResponse :=
  match routes.find? (fun r => r.path == req.path) with
  | none => ⟨404, "text/html; charset=utf-8", notFoundBody⟩
  | some r =>
    if req.method ∈ r.methods then
      ⟨200, "text/html; charset=utf-8", r.handler ()⟩
    else
      ⟨405, "text/html; charset=utf-8", methodNotAllowedBody⟩

/-- Substring helper: does the second list occur as a prefix of the
first argument list. -/
def startsWithList (pat : List Char) : List Char → Bool
  | [] => pat.isEmpty
  | c :: cs =>
    match pat with
    | [] => true
    | p :: ps => p == c && startsWithList ps cs

/-- Substring helper: does `pat` occur contiguously anywhere in the
second list. -/
def containsList (pat : List Char) : List Char → Bool
  | [] => pat.isEmpty
  | c :: cs => startsWithList pat (c :: cs) || containsList pat cs

/-- `strContainsSub s pat` is true when `pat` occurs as a contiguous
substring of `s`. -/
def strContainsSub (s pat : String) : Bool := containsList pat.toList s.toList

/-- `strStartsWith s pat` is true when `pat` is a prefix of `s`. -/
def strStartsWith (s pat : String) : Bool := startsWithList pat.toList s.toList

/-- The keyword arguments of the `app.run` call on line 18 of src/app.py:
`debug=True, host='0.0.0.0'`, and no port argument. -/
structure RunArgs where
  host : String
  port : Option Nat
  debug : Bool
deriving DecidableEq, Repr

/-- Exactly the arguments written on line 18: host 0.0.0.0, no port
argument (left to the framework default), debug on. -/
def appRunArgs : RunArgs := ⟨"0.0.0.0", none, true⟩

/-- Name bindings of a Python scope: names mapped to (abstract) values. -/
abbrev Bindings := List (String × String)

/-- Look a name up in the bindings of the module scope. -/
def lookupName (env : Bindings) (n : String) : Option String :=
  (env.find? (fun p => p.1 == n)).map Prod.snd

/-- The module-level statements of src/app.py, abstracted to the
operations they perform. `readEnvVar` and `readArgvInto` are the
operations a program would use to consume an environment variable or a
CLI argument; src/app.py contains neither. -/
inductive PyStmt where
  | importFlask
  | assignApp (arg : String)
  | defHomeRoute
  | guardRun (g : String) (m : String) (args : RunArgs)
  | readEnvVar (v : String) (tgt : String)
  | readArgvInto (i : Nat) (tgt : String)
deriving DecidableEq, Repr

/-- An observable effect of evaluating the module. -/
inductive PyEffect where
  | registerRoute (path : String)
  | runServer (args : RunArgs)
deriving DecidableEq, Repr

/-- A Python runtime error raised during module evaluation. Evaluating an
identifier that is not bound in scope raises NameError. -/
inductive PyError where
  | nameError (name : String) (line : Nat)
deriving DecidableEq, Repr

/-- One step of module evaluation: a statement either raises an error or
yields updated bindings and a list of effects.
  `importFlask` (line 1) binds the name Flask.
  `assignApp arg` (line 2) evaluates the identifier `arg` — NameError if
  it is unbound — then binds the name app to the created application.
  `defHomeRoute` (lines 3-15) evaluates the decorator `app.route`, which
  registers the route `/`, and binds the name home.
  `guardRun g m args` (lines 17-18) evaluates the identifier `g` —
  NameError if unbound — and calls `app.run args` when its value equals
  the literal `m`.
  `readEnvVar` and `readArgvInto` consume the OS environment and the CLI
  arguments; no statement of src/app.py does. -/
def evalStmt (osEnv : Bindings) (argv : List String) (env : Bindings) :
    PyStmt → Except PyError (Bindings × List PyEffect)
  | .importFlask => .ok ((("Flask", "<class Flask>") :: env), [])
  | .assignApp arg =>
    match lookupName env arg with
    | none => .error (.nameError arg 2)
    | some _ => .ok ((("app", "<Flask app>") :: env), [])
  | .defHomeRoute =>
    match lookupName env "app" with
    | none => .error (.nameError "app" 3)
    | some _ => .ok ((("home", "<function home>") :: env), [.registerRoute "/"])
  | .guardRun g m args =>
    match lookupName env g with
    | none => .error (.nameError g 17)
    | some v => .ok (env, if v == m then [.runServer args] else [])
  | .readEnvVar v tgt => .ok (((tgt, (lookupName osEnv v).getD "") :: env), [])
  | .readArgvInto i tgt => .ok (((tgt, argv.getD i "") :: env), [])

/-- Evaluate a list of statements in order, accumulating effects and
stopping at the first error. The result is the final bindings, the
effects performed before any error, and the error if one was raised. -/
def runStmts (osEnv : Bindings) (argv : List String) :
    Bindings → List PyEffect → List PyStmt → Bindings × List PyEffect × Option PyError
  | env, eff, [] => (env, eff, none)
  | env, eff, s :: rest =>
    match evalStmt osEnv argv env s with
    | .error e => (env, eff, some e)
    | .ok (env2, eff2) => runStmts osEnv argv env2 (eff ++ eff2) rest

/-- The module body of src/app.py, statement by statement. The
identifiers on lines 2 and 17 are literally `_name_` and `_main_`
(single underscores), as written in the source. -/
def appModule : List PyStmt :=
  [ .importFlask,
    .assignApp "_name_",
    .defHomeRoute,
    .guardRun "_name_" "_main_" appRunArgs ]

/-- The bindings the interpreter provides when the module is run
directly: the dunder name `__name__` is bound to `__main__`. The
single-underscore identifier `_name_` used by src/app.py is not among
them. -/
def directRunEnv : Bindings := [("__name__", "__main__")]

/-- Evaluate src/app.py as a directly-run module, given an OS environment
and a CLI argument vector. -/
def runAppModule (osEnv : Bindings) (argv : List String) :
    Bindings × List PyEffect × Option PyError :=
  runStmts osEnv argv directRunEnv [] appModule

/-- The module as the spec says it was intended (spec section 9): the
dunder entry-point guard `__name__`/`__main__` in place of the
single-underscore identifiers. -/
def intendedModule : List PyStmt :=
  [ .importFlask,
    .assignApp "__name__",
    .defHomeRoute,
    .guardRun "__name__" "__main__" appRunArgs ]

/-- Evaluate the intended (typo-free) module as a directly-run module. -/
def runIntendedModule (osEnv : Bindings) (argv : List String) :
    Bindings × List PyEffect × Option PyError :=
  runStmts osEnv argv directRunEnv [] intendedModule

/-- Drop leading whitespace characters from a list of characters. -/
def dropLeadingWS : List Char → List Char
  | [] => []
  | c :: cs =>
    if c = ' ' || c = '\n' || c = '\t' || c = '\r' then dropLeadingWS cs else c :: cs

/-- Strip leading and trailing whitespace from a string. -/
def trimWS (s : String) : String :=
  String.mk ((dropLeadingWS s.toList.reverse).reverse |> dropLeadingWS)

/-- The module-scope bindings right after line 1 of src/app.py has
executed: the import has bound Flask, on top of the interpreter-provided
dunder binding. This is the scope in which line 2 fails. -/
def lineOneBindings : Bindings := [("Flask", "<class Flask>"), ("__name__", "__main__")]

/-- C1: for every request with method GET and path `/`, the response of
the registered route table has status exactly 200 and its body is the
fixed HTML string returned by the handler `home`. -/
theorem C1_get_root_200_fixed_body (req : HttpRequest)
    (hm : req.method = "GET") (hp : req.path = "/") :
    flaskDispatch appRoutes req = ⟨200, "text/html; charset=utf-8", homeBody⟩ := by
  obtain ⟨m, p, h, q, b⟩ := req
  have hm2 : m = "GET" := hm
  have hp2 : p = "/" := hp
  subst hm2
  subst hp2
  rfl

/-- Witness for C1 at a concrete GET request to `/`. -/
theorem C1_get_root_200_fixed_body_witness :
    flaskDispatch appRoutes ⟨"GET", "/", [("Accept", "text/html")], "q=1", ""⟩ =
      ⟨200, "text/html; charset=utf-8", homeBody⟩ :=
  C1_get_root_200_fixed_body ⟨"GET", "/", [("Accept", "text/html")], "q=1", ""⟩ rfl rfl

set_option maxRecDepth 20000 in
/-- C2: the response body of GET `/`, after stripping leading and
trailing whitespace, contains the substrings Hello, Flask! (in the title
element), Hello, World!, and in particular <h1>Hello, World!</h1>. -/
theorem C2_get_root_body_substrings (req : HttpRequest)
    (hm : req.method = "GET") (hp : req.path = "/") :
    strContainsSub (trimWS (flaskDispatch appRoutes req).body) "Hello, Flask!" = true ∧
    strContainsSub (trimWS (flaskDispatch appRoutes req).body) "Hello, World!" = true ∧
    strContainsSub (trimWS (flaskDispatch appRoutes req).body) "<h1>Hello, World!</h1>" = true := by
  obtain ⟨m, p, h, q, b⟩ := req
  have hm2 : m = "GET" := hm
  have hp2 : p = "/" := hp
  subst hm2
  subst hp2
  have e : flaskDispatch appRoutes ⟨"GET", "/", h, q, b⟩ =
      ⟨200, "text/html; charset=utf-8", homeBody⟩ := rfl
  rw [e]
  exact ⟨by decide, by decide, by decide⟩

/-- Witness for C2 at a concrete GET request to `/`. -/
theorem C2_get_root_body_substrings_witness :
    strContainsSub (trimWS (flaskDispatch appRoutes ⟨"GET", "/", [], "", ""⟩).body)
      "<h1>Hello, World!</h1>" = true :=
  (C2_get_root_body_substrings ⟨"GET", "/", [], "", ""⟩ rfl rfl).2.2

/-- C3: for every request with method GET and path `/`, the Content-Type
of the response is text/html or a compatible variant (the framework
conversion of the string return value yields
text/html; charset=utf-8, whose media type is text/html). -/
theorem C3_get_root_content_type_html (req : HttpRequest)
    (hm : req.method = "GET") (hp : req.path = "/") :
    strStartsWith (flaskDispatch appRoutes req).contentType "text/html" = true := by
  obtain ⟨m, p, h, q, b⟩ := req
  have hm2 : m = "GET" := hm
  have hp2 : p = "/" := hp
  subst hm2
  subst hp2
  rfl

/-- Witness for C3 at a concrete GET request to `/`. -/
theorem C3_get_root_content_type_html_witness :
    strStartsWith (flaskDispatch appRoutes ⟨"GET", "/", [], "", ""⟩).contentType
      "text/html" = true :=
  C3_get_root_content_type_html ⟨"GET", "/", [], "", ""⟩ rfl rfl

/-- C4 (evaluation of the code at the failing input): running the module
directly — under any OS environment and any CLI argument vector — raises
NameError on the identifier written `_name_` at line 2 and performs no
effect at all; in particular the HTTP listener is never started,
contrary to the claim that startup starts the listener in the
foreground. (The claim is otherwise right that no CLI flag and no
environment variable is consumed: the outcome is the same constant for
every osEnv and argv.) -/
theorem C4_direct_run_never_listens (osEnv : Bindings) (argv : List String) :
    runAppModule osEnv argv = (lineOneBindings, [], some (.nameError "_name_" 2)) := by
  rfl

/-- C5: the naming inconsistency (`_name_`/`_main_` instead of the
dunder entry-point guard) prevents the `app.run` call from executing
when the program is run directly: the effect trace of the module as
written is empty (no `runServer` effect occurs, the evaluation having
aborted with the NameError on `_name_`), whereas the intended module
with the dunder guard does reach `app.run` with the arguments of
line 18. -/
theorem C5_runserver_never_reached :
    (runAppModule [] []).2.1 = [] ∧
    PyEffect.runServer appRunArgs ∈ (runIntendedModule [] []).2.1 :=
  ⟨rfl, by decide⟩

/-- C6: evaluating the module as written raises NameError at line 2
(the identifier `_name_` passed to Flask is never bound), under any OS
environment and CLI arguments; evaluation aborts with the bindings still
those produced by line 1 — so no route is registered (empty effect
trace), the names app and home are never bound, and the failure precedes
the misnamed guard at line 17. -/
theorem C6_module_eval_name_error (osEnv : Bindings) (argv : List String) :
    runAppModule osEnv argv = (lineOneBindings, [], some (.nameError "_name_" 2)) ∧
    lookupName lineOneBindings "app" = none ∧
    lookupName lineOneBindings "home" = none :=
  ⟨rfl, rfl, rfl⟩

/-- C7: every request to a path other than `/` gets the framework
fallback 404 response, whose body is not the fixed HTML body. -/
theorem C7_other_path_404 (req : HttpRequest) (hp : req.path ≠ "/") :
    (flaskDispatch appRoutes req).status = 404 ∧
    (flaskDispatch appRoutes req).body ≠ homeBody := by
  obtain ⟨m, p, h, q, b⟩ := req
  have hp2 : p ≠ "/" := hp
  have hb : (("/" : String) == p) = false := beq_false_of_ne (Ne.symm hp2)
  have e : flaskDispatch appRoutes ⟨m, p, h, q, b⟩ =
      ⟨404, "text/html; charset=utf-8", notFoundBody⟩ := by
    simp only [flaskDispatch, appRoutes, List.find?, hb]
  rw [e]
  exact ⟨rfl, by decide⟩

/-- Witness for C7 at a concrete request to a different path. -/
theorem C7_other_path_404_witness :
    (flaskDispatch appRoutes ⟨"GET", "/about", [], "", ""⟩).status = 404 ∧
    (flaskDispatch appRoutes ⟨"GET", "/about", [], "", ""⟩).body ≠ homeBody :=
  C7_other_path_404 ⟨"GET", "/about", [], "", ""⟩ (by decide)

/-- C8: every request to path `/` whose method is not GET receives the
framework rejection: a 405 response, which in particular is not HTTP 200
with the fixed body. -/
theorem C8_non_get_rejected (req : HttpRequest)
    (hp : req.path = "/") (hm : req.method ≠ "GET") :
    (flaskDispatch appRoutes req).status = 405 ∧
    ¬((flaskDispatch appRoutes req).status = 200 ∧
      (flaskDispatch appRoutes req).body = homeBody) := by
  obtain ⟨m, p, h, q, b⟩ := req
  have hp2 : p = "/" := hp
  have hm2 : m ≠ "GET" := hm
  subst hp2
  have e : flaskDispatch appRoutes ⟨m, "/", h, q, b⟩ =
      if m ∈ ["GET"] then ⟨200, "text/html; charset=utf-8", home ()⟩
      else ⟨405, "text/html; charset=utf-8", methodNotAllowedBody⟩ := rfl
  rw [e, if_neg (by simpa using hm2)]
  exact ⟨rfl, by decide⟩

/-- Witness for C8 at a concrete POST request to `/`. -/
theorem C8_non_get_rejected_witness :
    (flaskDispatch appRoutes ⟨"POST", "/", [], "", ""⟩).status = 405 ∧
    ¬((flaskDispatch appRoutes ⟨"POST", "/", [], "", ""⟩).status = 200 ∧
      (flaskDispatch appRoutes ⟨"POST", "/", [], "", ""⟩).body = homeBody) :=
  C8_non_get_rejected ⟨"POST", "/", [], "", ""⟩ rfl (by decide)

/-- C9: the `app.run` call of line 18 passes host 0.0.0.0 and no port
argument (the port is left to the framework default), the intended
module would start the server with exactly those arguments, and the
evaluation of the module is independent of the OS environment and the
CLI arguments: no override of host or port exists in the source. -/
theorem C9_run_args_host_port_no_env :
    appRunArgs.host = "0.0.0.0" ∧ appRunArgs.port = none ∧
    PyEffect.runServer ⟨"0.0.0.0", none, true⟩ ∈ (runIntendedModule [] []).2.1 ∧
    (∀ osEnv1 osEnv2 : Bindings, ∀ argv1 argv2 : List String,
      runAppModule osEnv1 argv1 = runAppModule osEnv2 argv2) :=
  ⟨rfl, rfl, by decide, fun _ _ _ _ => rfl⟩

/-- C10: the handler `home` is a constant function — it returns the same
string on every invocation — so any two GET requests to `/`, whatever
their headers, query string or body, produce byte-for-byte identical
responses. -/
theorem C10_home_constant_response :
    (∀ u v : Unit, home u = home v) ∧
    (∀ r1 r2 : HttpRequest, r1.method = "GET" → r1.path = "/" →
      r2.method = "GET" → r2.path = "/" →
      flaskDispatch appRoutes r1 = flaskDispatch appRoutes r2) := by
  refine ⟨fun u v => rfl, fun r1 r2 hm1 hp1 hm2 hp2 => ?_⟩
  obtain ⟨m1, p1, h1, q1, b1⟩ := r1
  obtain ⟨m2, p2, h2, q2, b2⟩ := r2
  have e1 : m1 = "GET" := hm1
  have e2 : p1 = "/" := hp1
  have e3 : m2 = "GET" := hm2
  have e4 : p2 = "/" := hp2
  subst e1
  subst e2
  subst e3
  subst e4
  rfl

/-- Witness for C10 at two concrete GET requests to `/` that differ in
headers, query string and body. -/
theorem C10_home_constant_response_witness :
    flaskDispatch appRoutes ⟨"GET", "/", [("Cookie", "a=1")], "x=2", "payload"⟩ =
      flaskDispatch appRoutes ⟨"GET", "/", [], "", ""⟩ :=
  C10_home_constant_response.2
    ⟨"GET", "/", [("Cookie", "a=1")], "x=2", "payload"⟩
    ⟨"GET", "/", [], "", ""⟩ rfl rfl rfl rfl
